import Mathlib

/-!
Verification of the Alzheimer's-dashboard script (src/Str.py) against its
natural-language specification.

The script is a straight-line streamlit program: `load_data` reads a CSV
into a pandas data frame and attaches two derived columns
(`Diagnosis_Binary`, `Age Group`), and the module-level code then builds
eight chart artifacts from the frame, in a fixed order, handing each to
the display sink.

The shallow embedding below models:
  * a cell (`Value`) as a string, a rational number, or a missing value
    (pandas NaN);
  * a data frame (`Frame`) as an association list from column names to
    columns (lists of cells); column access (`getColumn`) fails with a
    `keyError` exactly when the name is absent, as `df[name]` does;
  * `load_data` (lines 20-25), including the fact that reading a missing
    file raises (`fileNotFound`) and that only the columns the loader
    touches can raise a `keyError` at load time;
  * the pandas primitives the charts use: boolean-mask row filtering,
    `value_counts` (with and without `normalize=True`), `Series.max`,
    `head(10)`, and the Pearson correlation of two aligned columns with
    pairwise deletion of missing entries;
  * the module-level view builder (lines 29-112) as the ordered list of
    the eight chart computations together with the columns each one
    reads; an uncaught exception in one computation aborts the script,
    so the charts after it are never handed to the display sink.
-/

/-- A cell of the tabular data: a string, a rational number, or a missing
value (pandas NaN). -/
inductive Value where
  | str : String → Value
  | num : ℚ → Value
  | na  : Value
deriving DecidableEq

/-- A data frame: an association list from column names to columns. -/
abbrev Frame : Type := List (String × List Value)

/-- The exceptions the script can raise: a missing input file
(`FileNotFoundError` from `pd.read_csv`) or a missing column
(`KeyError` from `df[name]`). -/
inductive PdError where
  | fileNotFound : PdError
  | keyError : String → PdError
deriving DecidableEq

deriving instance DecidableEq for Except

/-- Column access `df[name]`: the column when present, a `keyError`
otherwise. -/
def getColumn (df : Frame) (name : String) : Except PdError (List Value) :=
  match df.lookup name with
  | some col => Except.ok col
  | none => Except.error (PdError.keyError name)

/-- Column assignment `df[name] = col`: replaces the column if present,
adds it otherwise. -/
def setColumn (df : Frame) (name : String) (col : List Value) : Frame :=
  (name, col) :: df.filter (fun p => p.1 != name)

/-- Line 22, the cell-level rule of
`df["Alzheimer’s Diagnosis"].map({"Yes": 1, "No": 0})`:
pandas `Series.map` with a dict sends a key that occurs in the dict to
its value and every other cell (including NaN) to NaN. -/
def mapDiagnosis (v : Value) : Value :=
  match v with
  | Value.str "Yes" => Value.num 1
  | Value.str "No"  => Value.num 0
  | _ => Value.na

/-- Lines 23-24, the cell-level rule of
`pd.cut(df["Age"], bins=[49, 59, 69, 79, 89, 99], labels=[...])`:
five right-closed intervals (49,59], (59,69], (69,79], (79,89], (89,99];
a value in no interval, or a non-numeric cell, yields NaN. -/
def cutAge (v : Value) : Value :=
  match v with
  | Value.num a =>
      if 49 < a ∧ a ≤ 59 then Value.str "50–59"
      else if 59 < a ∧ a ≤ 69 then Value.str "60–69"
      else if 69 < a ∧ a ≤ 79 then Value.str "70–79"
      else if 79 < a ∧ a ≤ 89 then Value.str "80–89"
      else if 89 < a ∧ a ≤ 99 then Value.str "90–99"
      else Value.na
  | _ => Value.na

/-- Lines 20-25, `load_data`. The argument models the input file:
`none` when the file is absent (so `pd.read_csv` raises), `some csv`
when it parses to the frame `csv`. The loader then touches exactly two
source columns, `Alzheimer’s Diagnosis` (line 22) and `Age` (line 23),
and attaches the two derived columns. -/
def load_data (file : Option Frame) : Except PdError Frame :=
  match file with
  | none => Except.error PdError.fileNotFound
  | some csv => do
      let diag ← getColumn csv "Alzheimer’s Diagnosis"
      let df1 := setColumn csv "Diagnosis_Binary" (diag.map mapDiagnosis)
      let age ← getColumn df1 "Age"
      Except.ok (setColumn df1 "Age Group" (age.map cutAge))

/-- Line 74: the five lifestyle indicator columns. -/
def lifestyle_cols : List String :=
  ["Smoking Status", "Alcohol Consumption", "Physical Activity Level",
   "Sleep Quality", "Dietary Habits"]

/-- Line 44: the five numeric features of the correlation heatmap. -/
def num_features : List String :=
  ["Age", "BMI", "Education Level", "Cognitive Test Score", "Diagnosis_Binary"]

/-- Boolean-mask row filtering followed by column selection,
`df[df["Alzheimer’s Diagnosis"] == group][col]` (lines 77 and 92): the
cells of `col` at the row positions where the diagnosis cell equals the
given label. -/
def filteredColumn (diag : List Value) (group : String) (col : List Value) :
    List Value :=
  ((diag.zip col).filter (fun p => p.1 == Value.str group)).map Prod.snd

/-- The non-missing cells of a series: `value_counts` works with
`dropna=True`, so missing cells take part in no count and no
proportion. -/
def cleanCells (xs : List Value) : List Value :=
  xs.filter (fun v => v != Value.na)

/-- `Series.value_counts()`: one `(value, count)` pair per distinct
non-missing cell, sorted by count descending (ties kept in
first-appearance order); missing cells are dropped. -/
def value_counts (xs : List Value) : List (Value × Nat) :=
  ((cleanCells xs).dedup.map (fun k => (k, (cleanCells xs).count k))).mergeSort
    (fun a b => decide (b.2 ≤ a.2))

/-- `Series.value_counts(normalize=True)`: one `(value, proportion)` pair
per distinct non-missing cell; the proportion divides by the number of
non-missing cells. (The sort order is irrelevant here: line 78 only takes
the maximum.) -/
def value_counts_normalize (xs : List Value) : List (Value × ℚ) :=
  (cleanCells xs).dedup.map
    (fun k => (k, ((cleanCells xs).count k : ℚ) / ((cleanCells xs).length : ℚ)))

/-- Line 78, one entry of the radar vector:
`subset[col].value_counts(normalize=True).max()` where `subset` is the
rows of the given diagnosis group. `none` models the NaN that
`Series.max()` yields on an empty series. -/
def radarValue (diag : List Value) (group : String) (col : List Value) :
    Option ℚ :=
  ((value_counts_normalize (filteredColumn diag group col)).map Prod.snd).max?

/-- Lines 74-79: the five-entry radar vector of one diagnosis group. -/
def radar_data (df : Frame) (group : String) :
    Except PdError (List (Option ℚ)) := do
  let diag ← getColumn df "Alzheimer’s Diagnosis"
  lifestyle_cols.mapM (fun c => do
    let col ← getColumn df c
    Except.ok (radarValue diag group col))

/-- Line 92: `diagnosed_df["Country"]`, the country cells of the rows
whose diagnosis label is `Yes`. -/
def diagnosedCountry (df : Frame) : Except PdError (List Value) := do
  let diag ← getColumn df "Alzheimer’s Diagnosis"
  let country ← getColumn df "Country"
  Except.ok (filteredColumn diag "Yes" country)

/-- Lines 92-94: `top_countries`, the `(country, diagnosed cases)` table
of the pie chart: `value_counts().head(10)` over diagnosed subjects. -/
def top_countries (df : Frame) : Except PdError (List (Value × Nat)) := do
  let c ← diagnosedCountry df
  Except.ok ((value_counts c).take 10)

/-- Lines 101-102: `country_counts`, the full `(country, diagnosed cases)`
table of the choropleth: `value_counts()` over diagnosed subjects. -/
def country_counts (df : Frame) : Except PdError (List (Value × Nat)) := do
  let c ← diagnosedCountry df
  Except.ok (value_counts c)

/-- The numeric content of a cell; `none` for strings and NaN. -/
def asNum (v : Value) : Option ℚ :=
  match v with
  | Value.num q => some q
  | _ => none

/-- The pairwise-complete numeric observations of two aligned columns:
the row positions where both cells are numeric, as pandas `.corr()`
uses (pairwise deletion of missing entries). -/
def pairObs (xs ys : List Value) : List (ℚ × ℚ) :=
  (xs.zip ys).filterMap (fun p =>
    match asNum p.1, asNum p.2 with
    | some a, some b => some (a, b)
    | _, _ => none)

/-- The mean of a list of rationals (0 for the empty list, where pandas
would yield NaN; the correlation claims always divide it away). -/
def mean (l : List ℚ) : ℚ := l.sum / (l.length : ℚ)

/-- Sum of centered products of a list of observation pairs: the
covariance of the two coordinates, up to the `1/(n-1)` factor that
cancels in a Pearson correlation. -/
def scov (ps : List (ℚ × ℚ)) : ℚ :=
  (ps.map (fun p =>
    (p.1 - mean (ps.map Prod.fst)) * (p.2 - mean (ps.map Prod.snd)))).sum

/-- Sum of squared deviations of a list of rationals: the variance up to
the `1/(n-1)` factor that cancels in a Pearson correlation. -/
def svar (l : List ℚ) : ℚ :=
  (l.map (fun x => (x - mean l) * (x - mean l))).sum

/-- Line 45, one entry of `df[num_features].corr()`: the Pearson
correlation of two aligned columns over their pairwise-complete numeric
observations. (Real-valued because of the square root; with Lean's
`x / 0 = 0` convention the entry is 0 where pandas would yield NaN.) -/
noncomputable def corr (xs ys : List Value) : ℝ :=
  let ps := pairObs xs ys
  (scov ps : ℝ) /
    Real.sqrt ((svar (ps.map Prod.fst) : ℝ) * (svar (ps.map Prod.snd) : ℝ))

/-- The i-th numeric feature name of line 44. -/
def feat (i : Fin 5) : String := num_features.get ⟨i.1, by simp [num_features]⟩

/-- Lines 44-45: entry `(i, j)` of the correlation heatmap matrix
`df[num_features].corr()`. -/
noncomputable def corr_matrix (df : Frame) (i j : Fin 5) : Except PdError ℝ := do
  let x ← getColumn df (feat i)
  let y ← getColumn df (feat j)
  Except.ok (corr x y)

/-- A chart artifact handed to the display sink: the figure it stands for
and the columns of data it was built from. -/
structure Chart where
  name : String
  cols : List (String × List Value)
deriving DecidableEq

/-- Lines 29-112 in order: the eight chart computations of the view
builder (the two cognitive-score charts share the `agg_df` aggregate of
line 52, so nine figures in all), each with the data-frame columns its
computation reads, in the order the code reads them. -/
def chart_columns : List (String × List String) :=
  [("fig1", ["Alzheimer’s Diagnosis"]),
   ("fig2", ["Age Group", "Alzheimer’s Diagnosis"]),
   ("fig_corr", num_features),
   ("fig3", ["Age", "Alzheimer’s Diagnosis", "Cognitive Test Score"]),
   ("fig4", ["Age", "Alzheimer’s Diagnosis", "Cognitive Test Score"]),
   ("fig5", ["Gender", "Alzheimer’s Diagnosis"]),
   ("fig6", ["Alzheimer’s Diagnosis"] ++ lifestyle_cols),
   ("fig7", ["Alzheimer’s Diagnosis", "Country"]),
   ("fig8", ["Alzheimer’s Diagnosis", "Country"])]

/-- One chart computation: read every column the chart needs (the first
absent one raises a `keyError`, as `df[name]` does) and build the
artifact. -/
def computeChart (df : Frame) (spec : String × List String) :
    Except PdError Chart := do
  let cols ← spec.2.mapM (fun c => do
    let v ← getColumn df c
    Except.ok (c, v))
  Except.ok ⟨spec.1, cols⟩

/-- Straight-line execution of a list of chart computations, as the
module-level script runs them: charts are handed to the display sink in
order until the first uncaught exception, which aborts the script; the
remaining computations never run. Returns the charts that reached the
sink and the aborting exception, if any. -/
def runCharts (df : Frame) : List (String × List String) →
    List Chart × Option PdError
  | [] => ([], none)
  | s :: rest =>
    match computeChart df s with
    | Except.error e => ([], some e)
    | Except.ok ch =>
      let r := runCharts df rest
      (ch :: r.1, r.2)

/-- Lines 29-112: the module-level view builder run on the loaded frame. -/
def runViewBuilder (df : Frame) : List Chart × Option PdError :=
  runCharts df chart_columns

/-- The whole script (lines 20-112): load, then build the charts; a load
failure aborts before any chart is computed. -/
def run_script (file : Option Frame) : List Chart × Option PdError :=
  match load_data file with
  | Except.error e => ([], some e)
  | Except.ok df => runViewBuilder df

/-- A one-row input whose diagnosis label is neither `Yes` nor `No`. -/
def csvMaybe : Frame :=
  [("Alzheimer’s Diagnosis", [Value.str "Maybe"]), ("Age", [Value.num 55])]

/-- An input holding only the two columns the loader touches. -/
def csvTwoCols : Frame :=
  [("Alzheimer’s Diagnosis", [Value.str "Yes"]), ("Age", [Value.num 55])]

/-- The four-row scenario table of the specification: ages
55, 65, 95, 105 with diagnoses Yes, No, Yes, Yes. -/
def csvScenario : Frame :=
  [("Alzheimer’s Diagnosis",
    [Value.str "Yes", Value.str "No", Value.str "Yes", Value.str "Yes"]),
   ("Age", [Value.num 55, Value.num 65, Value.num 95, Value.num 105])]

/-- A one-row input with every column of the dataset except `Gender`:
the chart that reads `Gender` (fig5) is the only one that cannot be
computed from it. -/
def csvNoGender : Frame :=
  [("Alzheimer’s Diagnosis", [Value.str "Yes"]),
   ("Age", [Value.num 55]),
   ("BMI", [Value.num 25]),
   ("Education Level", [Value.num 12]),
   ("Cognitive Test Score", [Value.num 30]),
   ("Country", [Value.str "France"]),
   ("Smoking Status", [Value.str "Never"]),
   ("Alcohol Consumption", [Value.str "Low"]),
   ("Physical Activity Level", [Value.str "High"]),
   ("Sleep Quality", [Value.str "Good"]),
   ("Dietary Habits", [Value.str "Healthy"])]

/-- The frame `load_data` produces from `csvNoGender`. -/
def dfNoGender : Frame := (load_data (some csvNoGender)).toOption.getD []

/-- A two-column input like `csvScenario` plus an extra column, for the
determinism claim: it differs from `csvScenario` as a file but agrees on
the two columns the derived columns are computed from. -/
def csvScenarioExtra : Frame :=
  csvScenario ++ [("Gender", [Value.str "F", Value.str "M", Value.str "F", Value.str "M"])]

/-- A five-row input with a `Country` column, for the pie-chart and
choropleth claims: three distinct countries among the diagnosed rows. -/
def csvCountries : Frame :=
  [("Alzheimer’s Diagnosis",
    [Value.str "Yes", Value.str "Yes", Value.str "No", Value.str "Yes",
     Value.str "Yes"]),
   ("Country",
    [Value.str "France", Value.str "Japan", Value.str "France",
     Value.str "France", Value.str "Brazil"])]

/-- A two-row frame holding the five numeric features, for the
correlation-matrix claim. -/
def dfNumeric : Frame :=
  [("Age", [Value.num 1, Value.num 2]),
   ("BMI", [Value.num 1, Value.num 3]),
   ("Education Level", [Value.num 0, Value.num 1]),
   ("Cognitive Test Score", [Value.num 5, Value.num 1]),
   ("Diagnosis_Binary", [Value.num 0, Value.num 1])]

/-- The columns of `dfNumeric` in feature order. -/
def colsNumeric : Fin 5 → List Value
  | 0 => [Value.num 1, Value.num 2]
  | 1 => [Value.num 1, Value.num 3]
  | 2 => [Value.num 0, Value.num 1]
  | 3 => [Value.num 5, Value.num 1]
  | 4 => [Value.num 0, Value.num 1]

/-- The diagnosis column of `csvScenario`. -/
def diagScenario : List Value :=
  [Value.str "Yes", Value.str "No", Value.str "Yes", Value.str "Yes"]

/-- The age column of `csvScenario`. -/
def ageScenario : List Value :=
  [Value.num 55, Value.num 65, Value.num 95, Value.num 105]

/-- The derived `Diagnosis_Binary` column of the scenario table. -/
def binScenario : List Value :=
  [Value.num 1, Value.num 0, Value.num 1, Value.num 1]

/-- The derived `Age Group` column of the scenario table. -/
def grpScenario : List Value :=
  [Value.str "50–59", Value.str "60–69", Value.str "90–99", Value.na]

/-- The frame `load_data` produces from `csvScenario`. -/
def dfScenario : Frame := (load_data (some csvScenario)).toOption.getD []

/-- The frame `load_data` produces from `csvScenarioExtra`. -/
def dfScenarioExtra : Frame := (load_data (some csvScenarioExtra)).toOption.getD []

/-- The frame `load_data` produces from `csvMaybe`. -/
def dfMaybe : Frame := (load_data (some csvMaybe)).toOption.getD []

/-! ### Helper lemmas -/

theorem except_ok_bind {ε α β : Type} (a : α) (f : α → Except ε β) :
    (Except.ok a >>= f) = f a := rfl

theorem except_error_bind {ε α β : Type} (e : ε) (f : α → Except ε β) :
    ((Except.error e : Except ε α) >>= f) = Except.error e := rfl

theorem getColumn_setColumn_self (df : Frame) (n : String) (c : List Value) :
    getColumn (setColumn df n c) n = Except.ok c := by
  simp [getColumn, setColumn, List.lookup]

theorem lookup_filter_ne (df : Frame) (n m : String) (h : m ≠ n) :
    (df.filter (fun p => p.1 != n)).lookup m = df.lookup m := by
  induction df with
  | nil => rfl
  | cons p df ih =>
    obtain ⟨k, c⟩ := p
    by_cases hk : k = n
    · subst hk
      have h2 : (m == k) = false := by simp [h]
      simp [List.filter_cons, List.lookup_cons, h2, ih]
    · have h1 : ((k, c).1 != n) = true := by simp [hk]
      by_cases hm : m = k
      · subst hm
        simp [List.filter_cons, h1, List.lookup_cons]
      · have h2 : (m == k) = false := by simp [hm]
        simp [List.filter_cons, h1, List.lookup_cons, h2, ih]

theorem getColumn_setColumn_ne (df : Frame) (n m : String) (c : List Value)
    (h : m ≠ n) : getColumn (setColumn df n c) m = getColumn df m := by
  have h2 : (m == n) = false := by simp [h]
  simp [getColumn, setColumn, List.lookup_cons, h2, lookup_filter_ne df n m h]

/-- What a successful load is: both touched columns are present, and the
result is the input frame with the two derived columns attached. -/
theorem load_data_ok_spec (csv df : Frame) :
    load_data (some csv) = Except.ok df ↔
      ∃ diag age, getColumn csv "Alzheimer’s Diagnosis" = Except.ok diag ∧
        getColumn csv "Age" = Except.ok age ∧
        df = setColumn (setColumn csv "Diagnosis_Binary" (diag.map mapDiagnosis))
          "Age Group" (age.map cutAge) := by
  constructor
  · intro h
    simp only [load_data] at h
    cases hdiag : getColumn csv "Alzheimer’s Diagnosis" with
    | error e => rw [hdiag, except_error_bind] at h; exact absurd h (by simp)
    | ok diag =>
      rw [hdiag, except_ok_bind] at h
      cases hage : getColumn
          (setColumn csv "Diagnosis_Binary" (diag.map mapDiagnosis)) "Age" with
      | error e =>
        rw [hage, except_error_bind] at h
        exact absurd h (by simp)
      | ok age =>
        rw [hage, except_ok_bind] at h
        simp only [Except.ok.injEq] at h
        have hAge : getColumn csv "Age" = Except.ok age := by
          rw [← hage]
          exact (getColumn_setColumn_ne _ _ _ _ (by decide)).symm
        exact ⟨diag, age, rfl, hAge, h.symm⟩
  · rintro ⟨diag, age, hdiag, hage, rfl⟩
    have hAge : getColumn
        (setColumn csv "Diagnosis_Binary" (diag.map mapDiagnosis)) "Age" =
        Except.ok age := by
      rw [getColumn_setColumn_ne _ _ _ _ (by decide)]; exact hage
    simp only [load_data]
    rw [hdiag, except_ok_bind, hAge, except_ok_bind]

/-- `Series.map` with the dict of line 22, as an if-chain. -/
theorem mapDiagnosis_eq (v : Value) :
    mapDiagnosis v =
      if v = Value.str "Yes" then Value.num 1
      else if v = Value.str "No" then Value.num 0
      else Value.na := by
  cases v with
  | str s =>
    by_cases h1 : s = "Yes"
    · subst h1; rfl
    · by_cases h2 : s = "No"
      · subst h2; rfl
      · have e1 : Value.str s ≠ Value.str "Yes" := by simp [h1]
        have e2 : Value.str s ≠ Value.str "No" := by simp [h2]
        rw [if_neg e1, if_neg e2]
        simp only [mapDiagnosis]
  | num q => rfl
  | na => rfl

/-- `pd.cut` on an integer age, with the interval bounds read back in ℤ. -/
theorem cutAge_intCast (a : ℤ) :
    cutAge (Value.num (a : ℚ)) =
      if 49 < a ∧ a ≤ 59 then Value.str "50–59"
      else if 59 < a ∧ a ≤ 69 then Value.str "60–69"
      else if 69 < a ∧ a ≤ 79 then Value.str "70–79"
      else if 79 < a ∧ a ≤ 89 then Value.str "80–89"
      else if 89 < a ∧ a ≤ 99 then Value.str "90–99"
      else Value.na := by
  have cast_iff : ∀ m n : ℤ, ((m : ℚ) < (a : ℚ) ∧ (a : ℚ) ≤ (n : ℚ)) ↔
      (m < a ∧ a ≤ n) := by
    intro m n
    constructor
    · rintro ⟨h1, h2⟩; exact ⟨by exact_mod_cast h1, by exact_mod_cast h2⟩
    · rintro ⟨h1, h2⟩; exact ⟨by exact_mod_cast h1, by exact_mod_cast h2⟩
  simp only [cutAge]
  have e49 : ((49 : ℤ) : ℚ) = (49 : ℚ) := by norm_num
  have e59 : ((59 : ℤ) : ℚ) = (59 : ℚ) := by norm_num
  have e69 : ((69 : ℤ) : ℚ) = (69 : ℚ) := by norm_num
  have e79 : ((79 : ℤ) : ℚ) = (79 : ℚ) := by norm_num
  have e89 : ((89 : ℤ) : ℚ) = (89 : ℚ) := by norm_num
  have e99 : ((99 : ℤ) : ℚ) = (99 : ℚ) := by norm_num
  rw [← e49, ← e59, ← e69, ← e79, ← e89, ← e99]
  rw [if_congr (cast_iff 49 59) rfl rfl]
  rw [if_congr (cast_iff 59 69) rfl rfl]
  rw [if_congr (cast_iff 69 79) rfl rfl]
  rw [if_congr (cast_iff 79 89) rfl rfl]
  rw [if_congr (cast_iff 89 99) rfl rfl]

/-- The two derived columns of a successful load, in terms of the two
source columns. -/
theorem load_columns (csv df : Frame) (diag age : List Value)
    (hload : load_data (some csv) = Except.ok df)
    (hdiag : getColumn csv "Alzheimer’s Diagnosis" = Except.ok diag)
    (hage : getColumn csv "Age" = Except.ok age) :
    getColumn df "Diagnosis_Binary" = Except.ok (diag.map mapDiagnosis) ∧
    getColumn df "Age Group" = Except.ok (age.map cutAge) := by
  obtain ⟨diag2, age2, hd2, ha2, rfl⟩ := (load_data_ok_spec csv df).1 hload
  rw [hdiag] at hd2
  rw [hage] at ha2
  simp only [Except.ok.injEq] at hd2 ha2
  subst hd2; subst ha2
  constructor
  · rw [getColumn_setColumn_ne _ _ _ _ (by decide), getColumn_setColumn_self]
  · rw [getColumn_setColumn_self]

/-- C6: the load operation maps the diagnosis label column to the binary
flag by the rule: the label `Yes` maps to 1, the label `No` maps to 0,
and any other value (including missing) maps to a missing value, for
every row of the input. -/
theorem diagnosis_map_rule (csv df : Frame) (diag bin : List Value)
    (hload : load_data (some csv) = Except.ok df)
    (hdiag : getColumn csv "Alzheimer’s Diagnosis" = Except.ok diag)
    (hbin : getColumn df "Diagnosis_Binary" = Except.ok bin) :
    bin.length = diag.length ∧
    ∀ i : Fin diag.length,
      (diag.get i = Value.str "Yes" → bin[i.1]? = some (Value.num 1)) ∧
      (diag.get i = Value.str "No" → bin[i.1]? = some (Value.num 0)) ∧
      (diag.get i ≠ Value.str "Yes" → diag.get i ≠ Value.str "No" →
        bin[i.1]? = some Value.na) := by
  obtain ⟨diag2, age2, hd2, ha2, rfl⟩ := (load_data_ok_spec csv _).1 hload
  rw [hdiag] at hd2
  simp only [Except.ok.injEq] at hd2
  subst hd2
  rw [getColumn_setColumn_ne _ _ _ _ (by decide), getColumn_setColumn_self]
    at hbin
  simp only [Except.ok.injEq] at hbin
  subst hbin
  refine ⟨by simp, fun i => ?_⟩
  have hbv : (diag.map mapDiagnosis)[i.1]? = some (mapDiagnosis (diag.get i)) := by
    rw [List.getElem?_map, List.getElem?_eq_getElem i.isLt]
    rfl
  rw [hbv, mapDiagnosis_eq]
  refine ⟨fun h => ?_, fun h => ?_, fun h1 h2 => ?_⟩
  · rw [if_pos h]
  · rw [if_neg (by rw [h]; decide), if_pos h]
  · rw [if_neg h1, if_neg h2]

/-- Witness for C6 on the four-row scenario table. -/
theorem diagnosis_map_rule_witness :
    (load_data (some csvScenario) = Except.ok dfScenario ∧
     getColumn csvScenario "Alzheimer’s Diagnosis" = Except.ok diagScenario ∧
     getColumn dfScenario "Diagnosis_Binary" = Except.ok binScenario) ∧
    (binScenario.length = diagScenario.length ∧
     ∀ i : Fin diagScenario.length,
      (diagScenario.get i = Value.str "Yes" →
        binScenario[i.1]? = some (Value.num 1)) ∧
      (diagScenario.get i = Value.str "No" →
        binScenario[i.1]? = some (Value.num 0)) ∧
      (diagScenario.get i ≠ Value.str "Yes" →
        diagScenario.get i ≠ Value.str "No" →
        binScenario[i.1]? = some Value.na)) :=
  ⟨⟨by decide, by decide, by decide⟩,
    diagnosis_map_rule csvScenario dfScenario diagScenario binScenario
      (by decide) (by decide) (by decide)⟩

/-- C1 (amended): the derived `Diagnosis_Binary` cell is 1 exactly on the
label `Yes` and 0 exactly on the label `No`; every other label
(unexpected strings or missing) yields a missing value, not 0. -/
theorem diagnosis_binary_iff (csv df : Frame) (diag bin : List Value)
    (hload : load_data (some csv) = Except.ok df)
    (hdiag : getColumn csv "Alzheimer’s Diagnosis" = Except.ok diag)
    (hbin : getColumn df "Diagnosis_Binary" = Except.ok bin) :
    bin.length = diag.length ∧
    ∀ i : Fin diag.length,
      (bin[i.1]? = some (Value.num 1) ↔ diag.get i = Value.str "Yes") ∧
      (bin[i.1]? = some (Value.num 0) ↔ diag.get i = Value.str "No") ∧
      (bin[i.1]? = some Value.na ↔
        (diag.get i ≠ Value.str "Yes" ∧ diag.get i ≠ Value.str "No")) := by
  obtain ⟨diag2, age2, hd2, ha2, rfl⟩ := (load_data_ok_spec csv _).1 hload
  rw [hdiag] at hd2
  simp only [Except.ok.injEq] at hd2
  subst hd2
  rw [getColumn_setColumn_ne _ _ _ _ (by decide), getColumn_setColumn_self]
    at hbin
  simp only [Except.ok.injEq] at hbin
  subst hbin
  refine ⟨by simp, fun i => ?_⟩
  have hbv : (diag.map mapDiagnosis)[i.1]? = some (mapDiagnosis (diag.get i)) := by
    rw [List.getElem?_map, List.getElem?_eq_getElem i.isLt]
    rfl
  rw [hbv, mapDiagnosis_eq]
  by_cases h1 : diag.get i = Value.str "Yes"
  · rw [if_pos h1]
    simp only [List.get_eq_getElem] at h1
    simp [h1]
  · rw [if_neg h1]
    by_cases h2 : diag.get i = Value.str "No"
    · rw [if_pos h2]
      simp only [List.get_eq_getElem] at h1 h2
      simp [h2, h1]
    · rw [if_neg h2]
      simp only [List.get_eq_getElem] at h1 h2
      simp [h1, h2]

/-- Witness for the amended C1 on the four-row scenario table. -/
theorem diagnosis_binary_iff_witness :
    (load_data (some csvScenario) = Except.ok dfScenario ∧
     getColumn csvScenario "Alzheimer’s Diagnosis" = Except.ok diagScenario ∧
     getColumn dfScenario "Diagnosis_Binary" = Except.ok binScenario) ∧
    (binScenario.length = diagScenario.length ∧
     ∀ i : Fin diagScenario.length,
      (binScenario[i.1]? = some (Value.num 1) ↔
        diagScenario.get i = Value.str "Yes") ∧
      (binScenario[i.1]? = some (Value.num 0) ↔
        diagScenario.get i = Value.str "No") ∧
      (binScenario[i.1]? = some Value.na ↔
        (diagScenario.get i ≠ Value.str "Yes" ∧
         diagScenario.get i ≠ Value.str "No"))) :=
  ⟨⟨by decide, by decide, by decide⟩,
    diagnosis_binary_iff csvScenario dfScenario diagScenario binScenario
      (by decide) (by decide) (by decide)⟩

/-- Counterexample to C1 as stated: on a row whose diagnosis label is
`Maybe` — a label other than `Yes` — the derived `Diagnosis_Binary` cell
is the missing value, not 0 as the claim demands. -/
theorem diagnosis_binary_unexpected_label_cx :
    getColumn csvMaybe "Alzheimer’s Diagnosis" = Except.ok [Value.str "Maybe"] ∧
    Value.str "Maybe" ≠ Value.str "Yes" ∧
    load_data (some csvMaybe) = Except.ok dfMaybe ∧
    getColumn dfMaybe "Diagnosis_Binary" = Except.ok [Value.na] ∧
    Value.na ≠ Value.num 0 := by decide

/-- C2: for integer ages, the derived `Age Group` cell is the decade
bucket for ages 50-99 (bins right-closed, so 50 and 99 are included),
and is the missing value for ages at or below 49, at or above 100, and
for missing ages. -/
theorem age_group_buckets (csv df : Frame) (age grp : List Value)
    (hload : load_data (some csv) = Except.ok df)
    (hage : getColumn csv "Age" = Except.ok age)
    (hgrp : getColumn df "Age Group" = Except.ok grp) :
    grp.length = age.length ∧
    ∀ i : Fin age.length,
      (∀ a : ℤ, age.get i = Value.num (a : ℚ) →
        ((50 ≤ a ∧ a ≤ 59) → grp[i.1]? = some (Value.str "50–59")) ∧
        ((60 ≤ a ∧ a ≤ 69) → grp[i.1]? = some (Value.str "60–69")) ∧
        ((70 ≤ a ∧ a ≤ 79) → grp[i.1]? = some (Value.str "70–79")) ∧
        ((80 ≤ a ∧ a ≤ 89) → grp[i.1]? = some (Value.str "80–89")) ∧
        ((90 ≤ a ∧ a ≤ 99) → grp[i.1]? = some (Value.str "90–99")) ∧
        (a ≤ 49 → grp[i.1]? = some Value.na) ∧
        (100 ≤ a → grp[i.1]? = some Value.na)) ∧
      (age.get i = Value.na → grp[i.1]? = some Value.na) := by
  obtain ⟨diag2, age2, hd2, ha2, rfl⟩ := (load_data_ok_spec csv _).1 hload
  rw [hage] at ha2
  simp only [Except.ok.injEq] at ha2
  subst ha2
  rw [getColumn_setColumn_self] at hgrp
  simp only [Except.ok.injEq] at hgrp
  subst hgrp
  refine ⟨by simp, fun i => ?_⟩
  have hbv : (age.map cutAge)[i.1]? = some (cutAge (age.get i)) := by
    rw [List.getElem?_map, List.getElem?_eq_getElem i.isLt]
    rfl
  refine ⟨fun a hai => ?_, fun hna => ?_⟩
  · rw [hbv, hai, cutAge_intCast]
    refine ⟨fun h => ?_, fun h => ?_, fun h => ?_, fun h => ?_, fun h => ?_,
      fun h => ?_, fun h => ?_⟩
    · rw [if_pos (by omega)]
    · rw [if_neg (by omega), if_pos (by omega)]
    · rw [if_neg (by omega), if_neg (by omega), if_pos (by omega)]
    · rw [if_neg (by omega), if_neg (by omega), if_neg (by omega),
        if_pos (by omega)]
    · rw [if_neg (by omega), if_neg (by omega), if_neg (by omega),
        if_neg (by omega), if_pos (by omega)]
    · rw [if_neg (by omega), if_neg (by omega), if_neg (by omega),
        if_neg (by omega), if_neg (by omega)]
    · rw [if_neg (by omega), if_neg (by omega), if_neg (by omega),
        if_neg (by omega), if_neg (by omega)]
  · rw [hbv, hna]
    rfl

/-- Witness for C2 on the scenario ages 55, 65, 95, 105. -/
theorem age_group_buckets_witness :
    (load_data (some csvScenario) = Except.ok dfScenario ∧
     getColumn csvScenario "Age" = Except.ok ageScenario ∧
     getColumn dfScenario "Age Group" = Except.ok grpScenario) ∧
    (grpScenario.length = ageScenario.length ∧
     ∀ i : Fin ageScenario.length,
      (∀ a : ℤ, ageScenario.get i = Value.num (a : ℚ) →
        ((50 ≤ a ∧ a ≤ 59) → grpScenario[i.1]? = some (Value.str "50–59")) ∧
        ((60 ≤ a ∧ a ≤ 69) → grpScenario[i.1]? = some (Value.str "60–69")) ∧
        ((70 ≤ a ∧ a ≤ 79) → grpScenario[i.1]? = some (Value.str "70–79")) ∧
        ((80 ≤ a ∧ a ≤ 89) → grpScenario[i.1]? = some (Value.str "80–89")) ∧
        ((90 ≤ a ∧ a ≤ 99) → grpScenario[i.1]? = some (Value.str "90–99")) ∧
        (a ≤ 49 → grpScenario[i.1]? = some Value.na) ∧
        (100 ≤ a → grpScenario[i.1]? = some Value.na)) ∧
      (ageScenario.get i = Value.na → grpScenario[i.1]? = some Value.na)) :=
  ⟨⟨by decide, by decide, by decide⟩,
    age_group_buckets csvScenario dfScenario ageScenario grpScenario
      (by decide) (by decide) (by decide)⟩

/-- C9: the derived columns are pure functions of the source columns —
two loads whose inputs agree on the diagnosis and age columns produce
identical `Diagnosis_Binary` and `Age Group` columns, whatever else
differs; in particular two loads of the same file contents agree. -/
theorem load_derived_deterministic (csv1 csv2 df1 df2 : Frame)
    (h1 : load_data (some csv1) = Except.ok df1)
    (h2 : load_data (some csv2) = Except.ok df2)
    (hd : getColumn csv1 "Alzheimer’s Diagnosis" =
      getColumn csv2 "Alzheimer’s Diagnosis")
    (ha : getColumn csv1 "Age" = getColumn csv2 "Age") :
    getColumn df1 "Diagnosis_Binary" = getColumn df2 "Diagnosis_Binary" ∧
    getColumn df1 "Age Group" = getColumn df2 "Age Group" := by
  obtain ⟨diagA, ageA, hdA, haA, rfl⟩ := (load_data_ok_spec csv1 _).1 h1
  obtain ⟨diagB, ageB, hdB, haB, rfl⟩ := (load_data_ok_spec csv2 _).1 h2
  rw [hdA, hdB] at hd
  rw [haA, haB] at ha
  simp only [Except.ok.injEq] at hd ha
  subst hd; subst ha
  constructor
  · rw [getColumn_setColumn_ne _ _ _ _ (by decide), getColumn_setColumn_self,
      getColumn_setColumn_ne _ _ _ _ (by decide), getColumn_setColumn_self]
  · rw [getColumn_setColumn_self, getColumn_setColumn_self]

/-- Witness for C9: two inputs that differ in an extra `Gender` column
but agree on the diagnosis and age columns. -/
theorem load_derived_deterministic_witness :
    (load_data (some csvScenario) = Except.ok dfScenario ∧
     load_data (some csvScenarioExtra) = Except.ok dfScenarioExtra ∧
     getColumn csvScenario "Alzheimer’s Diagnosis" =
       getColumn csvScenarioExtra "Alzheimer’s Diagnosis" ∧
     getColumn csvScenario "Age" = getColumn csvScenarioExtra "Age") ∧
    (getColumn dfScenario "Diagnosis_Binary" =
       getColumn dfScenarioExtra "Diagnosis_Binary" ∧
     getColumn dfScenario "Age Group" = getColumn dfScenarioExtra "Age Group") :=
  ⟨⟨by decide, by decide, by decide, by decide⟩,
    load_derived_deterministic csvScenario csvScenarioExtra dfScenario
      dfScenarioExtra (by decide) (by decide) (by decide) (by decide)⟩

/-- C5 (amended): a missing file, a missing diagnosis column, or a
missing age column each makes the load fail with the corresponding
exception, and any load failure is fatal — the script hands no chart at
all to the display sink. (Absence of any other column does not fail the
load; it surfaces later, in the first chart that reads the column.) -/
theorem load_failure_fatal :
    (load_data none = Except.error PdError.fileNotFound) ∧
    (∀ csv : Frame,
      getColumn csv "Alzheimer’s Diagnosis" =
        Except.error (PdError.keyError "Alzheimer’s Diagnosis") →
      load_data (some csv) =
        Except.error (PdError.keyError "Alzheimer’s Diagnosis")) ∧
    (∀ (csv : Frame) (diag : List Value),
      getColumn csv "Alzheimer’s Diagnosis" = Except.ok diag →
      getColumn csv "Age" = Except.error (PdError.keyError "Age") →
      load_data (some csv) = Except.error (PdError.keyError "Age")) ∧
    (∀ (file : Option Frame) (e : PdError),
      load_data file = Except.error e → run_script file = ([], some e)) := by
  refine ⟨rfl, fun csv h => ?_, fun csv diag hd ha => ?_, fun file e h => ?_⟩
  · simp only [load_data]
    rw [h, except_error_bind]
  · simp only [load_data]
    rw [hd, except_ok_bind]
    rw [getColumn_setColumn_ne _ _ _ _ (by decide), ha, except_error_bind]
  · simp only [run_script, h]

/-- Witness for the amended C5: the empty frame has no diagnosis column,
so its load fails; a missing file yields no chart at all. -/
theorem load_failure_fatal_witness :
    (getColumn ([] : Frame) "Alzheimer’s Diagnosis" =
       Except.error (PdError.keyError "Alzheimer’s Diagnosis") ∧
     load_data (none : Option Frame) = Except.error PdError.fileNotFound) ∧
    (load_data (some ([] : Frame)) =
       Except.error (PdError.keyError "Alzheimer’s Diagnosis") ∧
     run_script (none : Option Frame) = ([], some PdError.fileNotFound)) :=
  ⟨⟨by decide, by decide⟩,
   ⟨load_failure_fatal.2.1 [] (by decide),
    load_failure_fatal.2.2.2 none PdError.fileNotFound (by decide)⟩⟩

/-- Counterexample to C5 as stated: an input lacking `Gender`,
`Country`, `BMI` and every other chart column — all "required" by the
claim — still loads successfully, because the loader only touches the
diagnosis and age columns. -/
theorem load_missing_required_column_cx :
    Except.isOk (getColumn csvTwoCols "Gender") = false ∧
    Except.isOk (getColumn csvTwoCols "Country") = false ∧
    Except.isOk (getColumn csvTwoCols "BMI") = false ∧
    Except.isOk (getColumn csvTwoCols "Cognitive Test Score") = false ∧
    Except.isOk (load_data (some csvTwoCols)) = true := by decide

/-- A successfully computed chart carries the figure name of its spec. -/
theorem computeChart_name (df : Frame) (s : String × List String) (ch : Chart)
    (h : computeChart df s = Except.ok ch) : ch.name = s.1 := by
  simp only [computeChart] at h
  cases hm : s.2.mapM (fun c => do
      let v ← getColumn df c
      Except.ok (c, v)) with
  | error e => rw [hm, except_error_bind] at h; exact absurd h (by simp)
  | ok cols =>
    rw [hm, except_ok_bind] at h
    simp only [Except.ok.injEq] at h
    rw [← h]

/-- Straight-line chart execution on a split list: every computation
before the failing one reaches the sink, the failure aborts with its
exception, nothing after it is run. -/
theorem runCharts_prefix_error (df : Frame)
    (pre post : List (String × List String)) (s : String × List String)
    (e : PdError)
    (hok : ∀ t ∈ pre, Except.isOk (computeChart df t) = true)
    (herr : computeChart df s = Except.error e) :
    (runCharts df (pre ++ s :: post)).2 = some e ∧
    (runCharts df (pre ++ s :: post)).1.map Chart.name = pre.map Prod.fst := by
  induction pre with
  | nil =>
    simp [runCharts, herr]
  | cons t pre ih =>
    have hts : Except.isOk (computeChart df t) = true := hok t (by simp)
    obtain ⟨ch, hch⟩ : ∃ ch, computeChart df t = Except.ok ch := by
      cases hcc : computeChart df t with
      | ok ch => exact ⟨ch, rfl⟩
      | error e2 => rw [hcc] at hts; simp [Except.isOk, Except.toBool] at hts
    have ihr := ih (fun u hu => hok u (by simp [hu]))
    simp only [List.cons_append, runCharts, hch]
    refine ⟨ihr.1, ?_⟩
    simp only [List.map_cons, List.append_eq, ihr.2,
      computeChart_name df t ch hch]

/-- C4 (amended): the view builder has no per-chart error boundary — an
uncaught computation error in one chart aborts the module-level script
at that chart: every chart before it in the fixed order reaches the
display sink, and neither the failing chart nor any chart after it is
handed to the sink. -/
theorem view_builder_aborts (df : Frame)
    (pre post : List (String × List String)) (s : String × List String)
    (e : PdError)
    (hsplit : chart_columns = pre ++ s :: post)
    (hok : ∀ t ∈ pre, Except.isOk (computeChart df t) = true)
    (herr : computeChart df s = Except.error e) :
    (runViewBuilder df).2 = some e ∧
    (runViewBuilder df).1.map Chart.name = pre.map Prod.fst ∧
    ∀ t ∈ s :: post, t.1 ∉ (runViewBuilder df).1.map Chart.name := by
  have h := runCharts_prefix_error df pre post s e hok herr
  rw [runViewBuilder, hsplit]
  refine ⟨h.1, h.2, fun t ht => ?_⟩
  rw [h.2]
  have hnodup : ((pre ++ s :: post).map Prod.fst).Nodup := by
    rw [← hsplit]; decide
  rw [List.map_append, List.nodup_append] at hnodup
  intro hmem
  exact hnodup.2.2 hmem (List.mem_map.2 ⟨t, ht, rfl⟩)

/-- Witness for the amended C4: on a frame lacking `Gender`, the five
charts before fig5 reach the sink, fig5 aborts the script, and the
three charts after it never render. -/
theorem view_builder_aborts_witness :
    (chart_columns =
      [("fig1", ["Alzheimer’s Diagnosis"]),
       ("fig2", ["Age Group", "Alzheimer’s Diagnosis"]),
       ("fig_corr", num_features),
       ("fig3", ["Age", "Alzheimer’s Diagnosis", "Cognitive Test Score"]),
       ("fig4", ["Age", "Alzheimer’s Diagnosis", "Cognitive Test Score"])] ++
      ("fig5", ["Gender", "Alzheimer’s Diagnosis"]) ::
      [("fig6", ["Alzheimer’s Diagnosis"] ++ lifestyle_cols),
       ("fig7", ["Alzheimer’s Diagnosis", "Country"]),
       ("fig8", ["Alzheimer’s Diagnosis", "Country"])] ∧
     (∀ t ∈ [("fig1", ["Alzheimer’s Diagnosis"]),
       ("fig2", ["Age Group", "Alzheimer’s Diagnosis"]),
       ("fig_corr", num_features),
       ("fig3", ["Age", "Alzheimer’s Diagnosis", "Cognitive Test Score"]),
       ("fig4", ["Age", "Alzheimer’s Diagnosis", "Cognitive Test Score"])],
       Except.isOk (computeChart dfNoGender t) = true) ∧
     computeChart dfNoGender ("fig5", ["Gender", "Alzheimer’s Diagnosis"]) =
       Except.error (PdError.keyError "Gender")) ∧
    ((runViewBuilder dfNoGender).2 = some (PdError.keyError "Gender") ∧
     (runViewBuilder dfNoGender).1.map Chart.name =
       ["fig1", "fig2", "fig_corr", "fig3", "fig4"] ∧
     ∀ t ∈ ("fig5", ["Gender", "Alzheimer’s Diagnosis"]) ::
       [("fig6", ["Alzheimer’s Diagnosis"] ++ lifestyle_cols),
        ("fig7", ["Alzheimer’s Diagnosis", "Country"]),
        ("fig8", ["Alzheimer’s Diagnosis", "Country"])],
       t.1 ∉ (runViewBuilder dfNoGender).1.map Chart.name) :=
  ⟨⟨by decide, by decide, by decide⟩,
    view_builder_aborts dfNoGender
      [("fig1", ["Alzheimer’s Diagnosis"]),
       ("fig2", ["Age Group", "Alzheimer’s Diagnosis"]),
       ("fig_corr", num_features),
       ("fig3", ["Age", "Alzheimer’s Diagnosis", "Cognitive Test Score"]),
       ("fig4", ["Age", "Alzheimer’s Diagnosis", "Cognitive Test Score"])]
      [("fig6", ["Alzheimer’s Diagnosis"] ++ lifestyle_cols),
       ("fig7", ["Alzheimer’s Diagnosis", "Country"]),
       ("fig8", ["Alzheimer’s Diagnosis", "Country"])]
      ("fig5", ["Gender", "Alzheimer’s Diagnosis"])
      (PdError.keyError "Gender") (by decide) (by decide) (by decide)⟩

/-- Counterexample to C4 as stated: on an input lacking only `Gender`,
the failure of fig5 is not caught at a per-chart boundary — fig7's
computation succeeds on the same frame, yet fig7 (like fig6 and fig8)
never reaches the display sink: only the five charts before the failure
render. -/
theorem chart_isolation_cx :
    load_data (some csvNoGender) = Except.ok dfNoGender ∧
    Except.isOk (computeChart dfNoGender
      ("fig5", ["Gender", "Alzheimer’s Diagnosis"])) = false ∧
    Except.isOk (computeChart dfNoGender
      ("fig7", ["Alzheimer’s Diagnosis", "Country"])) = true ∧
    (run_script (some csvNoGender)).1.map Chart.name =
      ["fig1", "fig2", "fig_corr", "fig3", "fig4"] ∧
    (((run_script (some csvNoGender)).1.map Chart.name).contains "fig7")
      = false := by decide

theorem sum_map_ite_count {α : Type} [DecidableEq α] (x : α) (keys : List α) :
    (keys.map (fun k => if x = k then (1 : ℕ) else 0)).sum = keys.count x := by
  induction keys with
  | nil => simp
  | cons k ks ih =>
    simp only [List.map_cons, List.sum_cons, List.count_cons, ih]
    by_cases h : x = k
    · subst h; simp [Nat.add_comm]
    · have h2 : (k == x) = false := by simp [Ne.symm h]
      simp [h, h2]

/-- Summing the counts of a duplicate-free list of keys counts the
elements lying in the key set. -/
theorem sum_counts_eq_length_filter {α : Type} [DecidableEq α]
    (l keys : List α) (h : keys.Nodup) :
    (keys.map (fun k => l.count k)).sum =
      (l.filter (fun v => decide (v ∈ keys))).length := by
  induction l with
  | nil => simp
  | cons x l ih =>
    have hstep : (keys.map (fun k => (x :: l).count k)).sum
        = (keys.map (fun k => l.count k)).sum + keys.count x := by
      rw [← sum_map_ite_count x keys, ← List.sum_map_add]
      apply congrArg
      apply List.map_congr_left
      intro k _
      rw [List.count_cons]
      by_cases hk : x = k
      · simp [hk]
      · have h2 : (x == k) = false := by simp [hk]
        simp [h2, hk]
    rw [hstep, List.filter_cons]
    by_cases hx : x ∈ keys
    · have h1 : keys.count x = 1 := List.count_eq_one_of_mem h hx
      simp [hx, ih, h1]
    · have h0 : keys.count x = 0 := List.count_eq_zero.2 hx
      simp [hx, ih, h0]

theorem value_counts_perm (xs : List Value) :
    (value_counts xs).Perm
      ((cleanCells xs).dedup.map (fun k => (k, (cleanCells xs).count k))) :=
  List.mergeSort_perm _ _

theorem value_counts_mem (xs : List Value) (p : Value × ℕ)
    (hp : p ∈ value_counts xs) :
    p.1 ∈ (cleanCells xs).dedup ∧ p.2 = (cleanCells xs).count p.1 := by
  have h := (value_counts_perm xs).mem_iff.1 hp
  obtain ⟨k, hk, rfl⟩ := List.mem_map.1 h
  exact ⟨hk, rfl⟩

theorem value_counts_keys_perm (xs : List Value) :
    ((value_counts xs).map Prod.fst).Perm (cleanCells xs).dedup := by
  have h := (value_counts_perm xs).map Prod.fst
  rw [List.map_map] at h
  have e : (Prod.fst ∘ fun k : Value => (k, (cleanCells xs).count k)) = id := rfl
  rw [e, List.map_id] at h
  exact h

theorem value_counts_keys_nodup (xs : List Value) :
    ((value_counts xs).map Prod.fst).Nodup :=
  (value_counts_keys_perm xs).symm.nodup (List.nodup_dedup _)

theorem value_counts_sorted (xs : List Value) :
    (value_counts xs).Pairwise (fun a b => b.2 ≤ a.2) := by
  have h : List.Pairwise
      (fun a b : Value × ℕ => (decide (b.2 ≤ a.2)) = true) (value_counts xs) := by
    simp only [value_counts]
    apply List.sorted_mergeSort
    · intro a b c hab hbc
      simp only [decide_eq_true_eq] at hab hbc ⊢
      omega
    · intro a b
      simp only [Bool.or_eq_true, decide_eq_true_eq]
      omega
  simpa using h

theorem diagnosedCountry_ok (df : Frame) (diag country : List Value)
    (hdiag : getColumn df "Alzheimer’s Diagnosis" = Except.ok diag)
    (hcty : getColumn df "Country" = Except.ok country) :
    diagnosedCountry df = Except.ok (filteredColumn diag "Yes" country) := by
  simp only [diagnosedCountry]
  rw [hdiag, except_ok_bind, hcty, except_ok_bind]

/-- C7: the pie-chart table has at most 10 rows, and its counts sum to
the number of diagnosed rows whose country is one of those (at most 10)
countries. -/
theorem top_countries_sum (df : Frame) (diag country : List Value)
    (hdiag : getColumn df "Alzheimer’s Diagnosis" = Except.ok diag)
    (hcty : getColumn df "Country" = Except.ok country) :
    ∃ tc, top_countries df = Except.ok tc ∧
      tc.length ≤ 10 ∧
      (tc.map Prod.snd).sum =
        ((filteredColumn diag "Yes" country).filter
          (fun v => decide (v ∈ tc.map Prod.fst))).length := by
  refine ⟨(value_counts (filteredColumn diag "Yes" country)).take 10, ?_, ?_, ?_⟩
  · simp only [top_countries]
    rw [diagnosedCountry_ok df diag country hdiag hcty, except_ok_bind]
  · rw [List.length_take]
    exact min_le_left _ _
  · set cs := filteredColumn diag "Yes" country with hcs
    set tc := (value_counts cs).take 10 with htc
    have hsub : tc.Sublist (value_counts cs) := List.take_sublist _ _
    have hkeys_nodup : (tc.map Prod.fst).Nodup :=
      (hsub.map Prod.fst).nodup (value_counts_keys_nodup cs)
    have hmap : tc.map Prod.snd =
        (tc.map Prod.fst).map (fun k => (cleanCells cs).count k) := by
      rw [List.map_map]
      apply List.map_congr_left
      intro p hp
      exact (value_counts_mem cs p (hsub.subset hp)).2
    rw [hmap, sum_counts_eq_length_filter _ _ hkeys_nodup]
    have hkeysub : ∀ v, v ∈ tc.map Prod.fst → v ∈ cleanCells cs := by
      intro v hv
      have h1 : v ∈ (value_counts cs).map Prod.fst :=
        (hsub.map Prod.fst).subset hv
      exact List.mem_dedup.1 ((value_counts_keys_perm cs).mem_iff.1 h1)
    have hfilter : (cleanCells cs).filter
          (fun v => decide (v ∈ tc.map Prod.fst)) =
        cs.filter (fun v => decide (v ∈ tc.map Prod.fst)) := by
      rw [cleanCells, List.filter_filter]
      apply List.filter_congr
      intro v _
      by_cases h : v ∈ tc.map Prod.fst
      · have hna : (v != Value.na) = true :=
          (List.mem_filter.1 (hkeysub v h)).2
        simp [h, hna]
      · simp [h]
    rw [hfilter]

/-- Witness for C7 on the five-row country table: the diagnosed rows
have countries France, Japan, France, Brazil, so the pie has three
slices summing to 4. -/
theorem top_countries_sum_witness :
    (getColumn csvCountries "Alzheimer’s Diagnosis" =
       Except.ok [Value.str "Yes", Value.str "Yes", Value.str "No",
         Value.str "Yes", Value.str "Yes"] ∧
     getColumn csvCountries "Country" =
       Except.ok [Value.str "France", Value.str "Japan", Value.str "France",
         Value.str "France", Value.str "Brazil"]) ∧
    (∃ tc, top_countries csvCountries = Except.ok tc ∧
      tc.length ≤ 10 ∧
      (tc.map Prod.snd).sum =
        ((filteredColumn
            [Value.str "Yes", Value.str "Yes", Value.str "No",
             Value.str "Yes", Value.str "Yes"] "Yes"
            [Value.str "France", Value.str "Japan", Value.str "France",
             Value.str "France", Value.str "Brazil"]).filter
          (fun v => decide (v ∈ tc.map Prod.fst))).length) :=
  ⟨⟨by decide, by decide⟩,
    top_countries_sum csvCountries
      [Value.str "Yes", Value.str "Yes", Value.str "No", Value.str "Yes",
       Value.str "Yes"]
      [Value.str "France", Value.str "Japan", Value.str "France",
       Value.str "France", Value.str "Brazil"] (by decide) (by decide)⟩

/-- C10: the pie table is exactly the first 10 rows of the choropleth
table; both come from the same descending-sorted count table, whose keys
are exactly the distinct non-missing countries of the diagnosed rows,
one row each; with at most 10 distinct countries the tables coincide. -/
theorem pie_prefix_of_choropleth (df : Frame) (diag country : List Value)
    (hdiag : getColumn df "Alzheimer’s Diagnosis" = Except.ok diag)
    (hcty : getColumn df "Country" = Except.ok country) :
    ∃ tc cc, top_countries df = Except.ok tc ∧
      country_counts df = Except.ok cc ∧
      tc = cc.take 10 ∧
      (cc.map Prod.fst).Nodup ∧
      (∀ v, v ∈ cc.map Prod.fst ↔
        (v ∈ filteredColumn diag "Yes" country ∧ v ≠ Value.na)) ∧
      cc.Pairwise (fun a b => b.2 ≤ a.2) ∧
      (cc.length ≤ 10 → tc = cc) := by
  refine ⟨(value_counts (filteredColumn diag "Yes" country)).take 10,
    value_counts (filteredColumn diag "Yes" country), ?_, ?_, rfl,
    value_counts_keys_nodup _, ?_, value_counts_sorted _, ?_⟩
  · simp only [top_countries]
    rw [diagnosedCountry_ok df diag country hdiag hcty, except_ok_bind]
  · simp only [country_counts]
    rw [diagnosedCountry_ok df diag country hdiag hcty, except_ok_bind]
  · intro v
    rw [(value_counts_keys_perm _).mem_iff, List.mem_dedup, cleanCells,
      List.mem_filter, bne_iff_ne]
  · intro hlen
    exact List.take_of_length_le hlen

/-- Witness for C10 on the five-row country table: three distinct
diagnosed countries, so the pie and choropleth tables coincide. -/
theorem pie_prefix_of_choropleth_witness :
    (getColumn csvCountries "Alzheimer’s Diagnosis" =
       Except.ok [Value.str "Yes", Value.str "Yes", Value.str "No",
         Value.str "Yes", Value.str "Yes"] ∧
     getColumn csvCountries "Country" =
       Except.ok [Value.str "France", Value.str "Japan", Value.str "France",
         Value.str "France", Value.str "Brazil"]) ∧
    (∃ tc cc, top_countries csvCountries = Except.ok tc ∧
      country_counts csvCountries = Except.ok cc ∧
      tc = cc.take 10 ∧
      (cc.map Prod.fst).Nodup ∧
      (∀ v, v ∈ cc.map Prod.fst ↔
        (v ∈ filteredColumn
          [Value.str "Yes", Value.str "Yes", Value.str "No", Value.str "Yes",
           Value.str "Yes"] "Yes"
          [Value.str "France", Value.str "Japan", Value.str "France",
           Value.str "France", Value.str "Brazil"] ∧ v ≠ Value.na)) ∧
      cc.Pairwise (fun a b => b.2 ≤ a.2) ∧
      (cc.length ≤ 10 → tc = cc)) :=
  ⟨⟨by decide, by decide⟩,
    pie_prefix_of_choropleth csvCountries
      [Value.str "Yes", Value.str "Yes", Value.str "No", Value.str "Yes",
       Value.str "Yes"]
      [Value.str "France", Value.str "Japan", Value.str "France",
       Value.str "France", Value.str "Brazil"] (by decide) (by decide)⟩

/-- C3 (amended): whenever a lifestyle indicator has at least one
non-missing cell within a diagnosis group, the radar value of that
indicator is a defined proportion in (0, 1]: it bounds the proportion of
every category of the indicator within the group, it is attained by some
category, and it equals exactly 1 when the indicator takes a single
distinct value within the group. -/
theorem radar_max_proportion (diag col : List Value) (group : String)
    (hne : ∃ p ∈ diag.zip col, p.1 = Value.str group ∧ p.2 ≠ Value.na) :
    ∃ q, radarValue diag group col = some q ∧ 0 < q ∧ q ≤ 1 ∧
      (∀ v ∈ cleanCells (filteredColumn diag group col),
        ((cleanCells (filteredColumn diag group col)).count v : ℚ) /
          ((cleanCells (filteredColumn diag group col)).length : ℚ) ≤ q) ∧
      (∃ v ∈ cleanCells (filteredColumn diag group col),
        ((cleanCells (filteredColumn diag group col)).count v : ℚ) /
          ((cleanCells (filteredColumn diag group col)).length : ℚ) = q) ∧
      ((∀ v ∈ cleanCells (filteredColumn diag group col),
        ∀ w ∈ cleanCells (filteredColumn diag group col), v = w) → q = 1) := by
  obtain ⟨p, hpmem, hp1, hp2⟩ := hne
  have hcs : p.2 ∈ filteredColumn diag group col := by
    apply List.mem_map.2
    exact ⟨p, List.mem_filter.2 ⟨hpmem, by simp [hp1]⟩, rfl⟩
  have hcl : p.2 ∈ cleanCells (filteredColumn diag group col) :=
    List.mem_filter.2 ⟨hcs, bne_iff_ne.2 hp2⟩
  have hvs_ne :
      (value_counts_normalize (filteredColumn diag group col)).map Prod.snd
        ≠ [] := by
    have hd : p.2 ∈ (cleanCells (filteredColumn diag group col)).dedup :=
      List.mem_dedup.2 hcl
    simp only [value_counts_normalize, ne_eq, List.map_eq_nil_iff]
    intro hnil
    rw [hnil] at hd
    exact absurd hd (List.not_mem_nil _)
  cases hmax : ((value_counts_normalize
      (filteredColumn diag group col)).map Prod.snd).max? with
  | none => exact absurd (List.max?_eq_none_iff.1 hmax) hvs_ne
  | some q =>
    have hq_mem : q ∈ (value_counts_normalize
        (filteredColumn diag group col)).map Prod.snd :=
      List.max?_mem max_choice hmax
    have hq_ub : ∀ b ∈ (value_counts_normalize
        (filteredColumn diag group col)).map Prod.snd, b ≤ q :=
      (List.max?_le_iff (fun _ _ _ => max_le_iff) hmax).1 (le_refl q)
    obtain ⟨pr, hpr, hprq⟩ := List.mem_map.1 hq_mem
    obtain ⟨k, hk, hkpr⟩ := List.mem_map.1 hpr
    have hkcl : k ∈ cleanCells (filteredColumn diag group col) :=
      List.mem_dedup.1 hk
    have hlen_pos :
        0 < ((cleanCells (filteredColumn diag group col)).length : ℚ) := by
      have : 0 < (cleanCells (filteredColumn diag group col)).length :=
        List.length_pos.2 (List.ne_nil_of_mem hkcl)
      exact_mod_cast this
    have hqval : q = ((cleanCells (filteredColumn diag group col)).count k : ℚ) /
        ((cleanCells (filteredColumn diag group col)).length : ℚ) := by
      rw [← hprq, ← hkpr]
    have hcount_pos :
        0 < ((cleanCells (filteredColumn diag group col)).count k : ℚ) := by
      have : 0 < (cleanCells (filteredColumn diag group col)).count k :=
        List.count_pos_iff.2 hkcl
      exact_mod_cast this
    refine ⟨q, ?_, ?_, ?_, ?_, ?_, ?_⟩
    · exact hmax
    · rw [hqval]
      exact div_pos hcount_pos hlen_pos
    · rw [hqval]
      apply (div_le_one hlen_pos).2
      exact_mod_cast List.count_le_length _ _
    · intro v hv
      apply hq_ub
      apply List.mem_map.2
      refine ⟨(v, ((cleanCells (filteredColumn diag group col)).count v : ℚ) /
        ((cleanCells (filteredColumn diag group col)).length : ℚ)), ?_, rfl⟩
      apply List.mem_map.2
      exact ⟨v, List.mem_dedup.2 hv, rfl⟩
    · exact ⟨k, hkcl, hqval.symm⟩
    · intro hall
      have hc : (cleanCells (filteredColumn diag group col)).count k =
          (cleanCells (filteredColumn diag group col)).length :=
        List.count_eq_length.2 (fun b hb => hall k hkcl b hb)
      rw [hqval, hc]
      exact div_self (ne_of_gt hlen_pos)

/-- Witness for the amended C3: a one-row group whose smoking status is
`Never` — a single distinct value — gives radar proportion exactly 1. -/
theorem radar_max_proportion_witness :
    (∃ p ∈ ([Value.str "Yes"].zip [Value.str "Never"]),
      p.1 = Value.str "Yes" ∧ p.2 ≠ Value.na) ∧
    (∃ q, radarValue [Value.str "Yes"] "Yes" [Value.str "Never"] = some q ∧
      0 < q ∧ q ≤ 1 ∧
      (∀ v ∈ cleanCells (filteredColumn [Value.str "Yes"] "Yes"
          [Value.str "Never"]),
        ((cleanCells (filteredColumn [Value.str "Yes"] "Yes"
            [Value.str "Never"])).count v : ℚ) /
          ((cleanCells (filteredColumn [Value.str "Yes"] "Yes"
            [Value.str "Never"])).length : ℚ) ≤ q) ∧
      (∃ v ∈ cleanCells (filteredColumn [Value.str "Yes"] "Yes"
          [Value.str "Never"]),
        ((cleanCells (filteredColumn [Value.str "Yes"] "Yes"
            [Value.str "Never"])).count v : ℚ) /
          ((cleanCells (filteredColumn [Value.str "Yes"] "Yes"
            [Value.str "Never"])).length : ℚ) = q) ∧
      ((∀ v ∈ cleanCells (filteredColumn [Value.str "Yes"] "Yes"
          [Value.str "Never"]),
        ∀ w ∈ cleanCells (filteredColumn [Value.str "Yes"] "Yes"
          [Value.str "Never"]), v = w) → q = 1)) :=
  ⟨by decide,
    radar_max_proportion [Value.str "Yes"] [Value.str "Never"] "Yes"
      (by decide)⟩

/-- Counterexample to C3 as stated: a diagnosis group that is non-empty
but whose lifestyle indicator cells are all missing — `value_counts`
drops them, so `Series.max()` runs on an empty series and the radar
value is undefined (NaN), not a proportion in [0, 1]. -/
theorem radar_all_missing_cx :
    Value.str "Yes" ∈ [Value.str "Yes"] ∧
    ([Value.na] : List Value).length = ([Value.str "Yes"] : List Value).length ∧
    radarValue [Value.str "Yes"] "Yes" [Value.na] = none := by decide

theorem pairObs_self (xs : List Value) :
    pairObs xs xs = (xs.filterMap asNum).map (fun a => (a, a)) := by
  induction xs with
  | nil => rfl
  | cons v t ih =>
    simp only [pairObs, List.zip_cons_cons, List.filterMap_cons] at ih ⊢
    cases hv : asNum v with
    | none => simpa [hv] using ih
    | some a => simpa [hv] using ih

theorem pairObs_swap (xs ys : List Value) :
    pairObs ys xs = (pairObs xs ys).map Prod.swap := by
  unfold pairObs
  rw [← List.zip_swap xs ys, List.filterMap_map, List.map_filterMap]
  congr 1
  funext p
  cases h1 : asNum p.1 <;> cases h2 : asNum p.2 <;>
    simp [Function.comp, Prod.swap, h1, h2]

theorem scov_swap (ps : List (ℚ × ℚ)) : scov (ps.map Prod.swap) = scov ps := by
  unfold scov
  have e1 : (Prod.fst ∘ (Prod.swap : ℚ × ℚ → ℚ × ℚ)) = Prod.snd := rfl
  have e2 : (Prod.snd ∘ (Prod.swap : ℚ × ℚ → ℚ × ℚ)) = Prod.fst := rfl
  rw [List.map_map, List.map_map, List.map_map, e1, e2]
  apply congrArg
  apply List.map_congr_left
  intro p _
  simp only [Function.comp]
  rw [mul_comm]
  rfl

theorem svar_nonneg (l : List ℚ) : 0 ≤ svar l := by
  apply List.sum_nonneg
  intro x hx
  obtain ⟨a, _, rfl⟩ := List.mem_map.1 hx
  exact mul_self_nonneg _

/-- `corr` with its local `let` unfolded. -/
theorem corr_def (xs ys : List Value) :
    corr xs ys = (scov (pairObs xs ys) : ℝ) /
      Real.sqrt ((svar ((pairObs xs ys).map Prod.fst) : ℝ) *
        (svar ((pairObs xs ys).map Prod.snd) : ℝ)) := rfl

theorem corr_symm (xs ys : List Value) : corr xs ys = corr ys xs := by
  rw [corr_def, corr_def, pairObs_swap xs ys, scov_swap, List.map_map,
    List.map_map]
  have e1 : (Prod.fst ∘ (Prod.swap : ℚ × ℚ → ℚ × ℚ)) = Prod.snd := rfl
  have e2 : (Prod.snd ∘ (Prod.swap : ℚ × ℚ → ℚ × ℚ)) = Prod.fst := rfl
  rw [e1, e2, mul_comm ((svar ((pairObs xs ys).map Prod.fst) : ℝ))]

theorem corr_self (xs : List Value) (h : svar (xs.filterMap asNum) ≠ 0) :
    corr xs xs = 1 := by
  rw [corr_def, pairObs_self]
  have e1 : (Prod.fst ∘ fun a : ℚ => (a, a)) = id := rfl
  have e2 : (Prod.snd ∘ fun a : ℚ => (a, a)) = id := rfl
  have hscov : scov ((xs.filterMap asNum).map (fun a => (a, a))) =
      svar (xs.filterMap asNum) := by
    unfold scov svar
    rw [List.map_map, List.map_map, List.map_map, e1, e2, List.map_id]
    rfl
  rw [List.map_map, List.map_map, e1, e2, List.map_id, hscov]
  have hnn : (0 : ℝ) ≤ (svar (xs.filterMap asNum) : ℝ) := by
    exact_mod_cast svar_nonneg _
  rw [Real.sqrt_mul_self hnn]
  apply div_self
  exact_mod_cast h

/-- C8: the Pearson correlation matrix over the five numeric features is
symmetric, and every diagonal entry whose feature has nonzero variance
(the case where pandas defines the entry at all) equals 1. -/
theorem corr_matrix_symm_diag (df : Frame) (cols : Fin 5 → List Value)
    (h : ∀ i, getColumn df (feat i) = Except.ok (cols i)) :
    (∀ i j, corr_matrix df i j = corr_matrix df j i) ∧
    (∀ i, svar ((cols i).filterMap asNum) ≠ 0 →
      corr_matrix df i i = Except.ok 1) := by
  have hm : ∀ i j, corr_matrix df i j = Except.ok (corr (cols i) (cols j)) := by
    intro i j
    simp only [corr_matrix]
    rw [h i, except_ok_bind, h j, except_ok_bind]
  constructor
  · intro i j
    rw [hm i j, hm j i, corr_symm]
  · intro i hv
    rw [hm i i, corr_self _ hv]

/-- Witness for C8 on a two-row numeric frame with nonconstant columns. -/
theorem corr_matrix_symm_diag_witness :
    ((∀ i : Fin 5, getColumn dfNumeric (feat i) = Except.ok (colsNumeric i)) ∧
     svar ((colsNumeric 0).filterMap asNum) ≠ 0) ∧
    ((∀ i j : Fin 5, corr_matrix dfNumeric i j = corr_matrix dfNumeric j i) ∧
     corr_matrix dfNumeric 0 0 = Except.ok 1) := by
  have h := corr_matrix_symm_diag dfNumeric colsNumeric (by decide)
  refine ⟨⟨by decide, ?_⟩, h.1, h.2 0 ?_⟩
  all_goals norm_num [colsNumeric, asNum, svar, mean, List.filterMap_cons]
